import Mathlib

/-!
Verification of the Project_Onigari analysis-pipeline core against its
natural-language specification.  The definitions below are a shallow
embedding of the Python source: `brain/exceptions.py`, `brain/manager.py`
(`SmartChainProvider.analyze`), `brain/providers.py` (`retry_on_rate_limit`),
`database/enums.py`, `database/service.py` (`VacancyRepository`),
`run_llm_requests.py` (`process_vacancy`) and `utils/hashing.py`.
-/

namespace Onigari

/-! ## Error taxonomy (brain/exceptions.py)

Class hierarchy in the source:
`AnalysisError` is the base; `ProviderError`, `ValidationError` derive from it;
`RateLimitError` and `ContentFilterError` derive from `ProviderError`. -/

inductive BrainError where
  | analysisError (msg : String)
  | providerError (msg : String)
  | validationError (msg : String)
  | rateLimitError (msg : String)
  | contentFilterError (msg : String)
  deriving Repr, DecidableEq

/-- Python `str(e)`: the message carried by the exception. -/
def BrainError.message : BrainError → String
  | .analysisError m => m
  | .providerError m => m
  | .validationError m => m
  | .rateLimitError m => m
  | .contentFilterError m => m

/-- Membership test for the clause `except (RateLimitError, ProviderError)` in
`SmartChainProvider.analyze`.  Catching `ProviderError` in Python also catches
its subclasses `RateLimitError` and `ContentFilterError`; `ValidationError`
and a bare `AnalysisError` are not caught. -/
def BrainError.caughtByChain : BrainError → Bool
  | .providerError _ => true
  | .rateLimitError _ => true
  | .contentFilterError _ => true
  | .analysisError _ => false
  | .validationError _ => false

/-! ## Provider Router (brain/manager.py, SmartChainProvider.analyze)

One call to `SmartChainProvider.analyze` observes, for each adapter in the
ordered list, its current health and — if the adapter is tried — the outcome
of its `analyze` call.  An `Adapter` packages those two observations. -/

structure Adapter (α : Type) where
  healthy : Bool
  outcome : Except BrainError (α × Nat)
  deriving Repr

/-- What a single `SmartChainProvider.analyze` call did to one adapter of the
list: never reached it (`untouched`), skipped it on the health check
(`skipped`), invoked `analyze` and on a caught error called `mark_failed` and
moved on (`markedFailed`), invoked `analyze` successfully (`served`), or
invoked `analyze` and let its exception propagate uncaught (`raised`). -/
inductive AdapterEvent where
  | untouched
  | skipped
  | markedFailed
  | served
  | raised
  deriving Repr, DecidableEq

/-- Event kinds in which the adapter's `analyze` coroutine (a network attempt)
was actually invoked. -/
def AdapterEvent.invokesAnalyze : AdapterEvent → Bool
  | .served => true
  | .markedFailed => true
  | .raised => true
  | .untouched => false
  | .skipped => false

/-- Number of adapter `analyze` invocations (network attempts) in a trace. -/
def analyzeCallCount (es : List AdapterEvent) : Nat :=
  es.countP (·.invokesAnalyze)

/-- Observable effect of one `SmartChainProvider.analyze` call: the returned
value or propagated exception, the index stored into `_last_used_provider`
(provenance of the serving adapter), and one event per adapter of the list. -/
structure RouterRun (α : Type) where
  result : Except BrainError (α × Nat)
  servedIdx : Option Nat
  events : List AdapterEvent
  deriving Repr

/-- Embedding of `SmartChainProvider.analyze`: iterate the providers in
priority order; skip an unhealthy provider; on the first healthy one attempt
the call; on success remember the provider and return immediately; on a
caught `RateLimitError`/`ProviderError` call `mark_failed()` and continue;
any other exception propagates; if the loop finishes, raise the aggregate
`AnalysisError`. -/
def chainAnalyze {α : Type} : List (Adapter α) → RouterRun α
  | [] => ⟨.error (.analysisError "💀 Total collapse: all providers are dead or on cooldown."),
           none, []⟩
  | p :: rest =>
    if p.healthy then
      match p.outcome with
      | .ok rt => ⟨.ok rt, some 0, .served :: rest.map fun _ => .untouched⟩
      | .error e =>
        if e.caughtByChain then
          let r := chainAnalyze rest
          ⟨r.result, r.servedIdx.map (· + 1), .markedFailed :: r.events⟩
        else
          ⟨.error e, none, .raised :: rest.map fun _ => .untouched⟩
    else
      let r := chainAnalyze rest
      ⟨r.result, r.servedIdx.map (· + 1), .skipped :: r.events⟩

/-! ## Retry/Backoff decorator (brain/providers.py, retry_on_rate_limit) -/

/-- Whether the first character list starts the second. -/
def startsWithChars : List Char → List Char → Bool
  | [], _ => true
  | _ :: _, [] => false
  | p :: ps, c :: cs => p == c && startsWithChars ps cs

/-- Whether the first character list occurs contiguously in the second. -/
def hasSubChars (pat : List Char) : List Char → Bool
  | [] => pat.isEmpty
  | c :: cs => startsWithChars pat (c :: cs) || hasSubChars pat cs

/-- Python substring test `pat in s`. -/
def strContains (s pat : String) : Bool :=
  hasSubChars pat.data s.data

/-- Python `str.lower()` (over the ASCII range the source's markers use). -/
def strLower (s : String) : String :=
  ⟨s.data.map Char.toLower⟩

/-- Rate-limit detection in the decorator:
`"429" in err_msg or "quota" in err_msg or "rate_limit" in err_msg`
on the lower-cased message. -/
def isRateLimitMessage (s : String) : Bool :=
  let m := strLower s
  strContains m "429" || strContains m "quota" || strContains m "rate_limit"

/-- An exception raised by the wrapped call; `caught` records whether its
class is a member of the decorator's `catch_exceptions` tuple. -/
structure PyError where
  msg : String
  caught : Bool
  deriving Repr, DecidableEq

/-- Observable effect of one decorated call: outcome, total number of
invocations of the wrapped function, and the sequence of back-off sleeps. -/
structure RetryRun (α : Type) where
  result : Except PyError α
  attemptCount : Nat
  sleeps : List ℚ
  deriving Repr

/-- The `for attempt in range(retries)` loop of the decorator, with the
absolute attempt index and the remaining loop iterations.  When the loop is
exhausted the wrapper performs one final `return await func(*args, **kwargs)`
outside any try, whose exception propagates raw.  Inside the loop, a caught
exception whose message carries a rate-limit marker triggers
`asyncio.sleep(base_delay * (attempt + 1))` and a retry; any other exception
is re-raised immediately. -/
def retryLoop {α : Type} (baseDelay : ℚ) (call : Nat → Except PyError α) :
    Nat → Nat → RetryRun α
  | attempt, 0 => ⟨call attempt, attempt + 1, []⟩
  | attempt, rem + 1 =>
    match call attempt with
    | .ok v => ⟨.ok v, attempt + 1, []⟩
    | .error e =>
      if e.caught then
        if isRateLimitMessage e.msg then
          let r := retryLoop baseDelay call (attempt + 1) rem
          ⟨r.result, r.attemptCount, baseDelay * ((attempt : ℚ) + 1) :: r.sleeps⟩
        else ⟨.error e, attempt + 1, []⟩
      else ⟨.error e, attempt + 1, []⟩

/-- Embedding of `retry_on_rate_limit(retries, base_delay, ...)` applied to a
wrapped call whose behaviour on its n-th invocation (0-based) is `call n`. -/
def retry_on_rate_limit {α : Type} (retries : Nat) (baseDelay : ℚ)
    (call : Nat → Except PyError α) : RetryRun α :=
  retryLoop baseDelay call 0 retries

/-! ## Status enum (database/enums.py, class VacancyStatus)

The members exactly as declared in the source, in declaration order:
NEW, EXTRACTED, ANALYZED, VECTORIZED, ARCHIVED, FAILED. -/

inductive VacancyStatus where
  | new
  | extracted
  | analyzed
  | vectorized
  | archived
  | failed
  deriving Repr, DecidableEq, Fintype

/-- Python attribute lookup `VacancyStatus.<NAME>` on the enum class of
database/enums.py; `none` models the `AttributeError` raised for a name that
is not a declared member. -/
def VacancyStatus.fromAttr : String → Option VacancyStatus
  | "NEW" => some .new
  | "EXTRACTED" => some .extracted
  | "ANALYZED" => some .analyzed
  | "VECTORIZED" => some .vectorized
  | "ARCHIVED" => some .archived
  | "FAILED" => some .failed
  | _ => none

/-- Python member name of a declared `VacancyStatus` member. -/
def VacancyStatus.pyName : VacancyStatus → String
  | .new => "NEW"
  | .extracted => "EXTRACTED"
  | .analyzed => "ANALYZED"
  | .vectorized => "VECTORIZED"
  | .archived => "ARCHIVED"
  | .failed => "FAILED"

/-! ## Data model (brain/schemas.py, database/models.py) -/

/-- Embedding of `SalaryData` (brain/schemas.py). -/
structure SalaryData where
  min : Option Int
  max : Option Int
  currency : String
  isGross : Bool
  deriving Repr, DecidableEq

/-- Embedding of `VacancyStructuredData` (brain/schemas.py), the Stage-1
output shape. -/
structure VacancyStructuredData where
  techStack : List String
  grade : String
  workFormat : String
  employmentType : String
  experienceMin : Option ℚ
  locationCity : Option String
  locationAddress : Option String
  domain : Option String
  salaryParse : Option SalaryData
  benefits : List String
  redFlagKeywords : List String
  deriving Repr, DecidableEq

/-- Embedding of `VacancyJudgment` (brain/schemas.py), the Stage-2 output
shape (`trust_score` is validated to lie in 0..10 by the schema). -/
structure VacancyJudgment where
  trustScore : Int
  redFlags : List String
  toxicPhrases : List String
  honestSummary : String
  verdict : String
  deriving Repr, DecidableEq

/-- Embedding of `VacancyAnalysisResult` (brain/schemas.py). -/
structure VacancyAnalysisResult where
  structuredData : VacancyStructuredData
  judgment : VacancyJudgment
  modelName : String
  provider : String
  analysisVersion : String
  tokensUsed : Option Int
  confidenceScore : Option ℚ
  errorMessage : Option String
  deriving Repr, DecidableEq

/-- The JSONB `attributes` column of a Vacancy row, restricted to the four
keys the Stage-1 save writes (`tech_stack`, `benefits`, `red_flag_keywords`,
`domain`); `none` models an absent key. -/
structure Attrs where
  techStack : Option (List String)
  benefits : Option (List String)
  redFlagKeywords : Option (List String)
  domain : Option (Option String)
  deriving Repr, DecidableEq

/-- Embedding of the `Vacancy` ORM row (database/models.py), restricted to
the columns the pipeline operations read or write. -/
structure VacancyRow where
  id : Nat
  status : VacancyStatus
  title : String
  companyName : String
  description : Option String
  attributes : Attrs
  grade : Option String
  workFormat : String
  employmentType : String
  experienceMin : Option ℚ
  locationCity : Option String
  locationAddress : Option String
  salaryFrom : Option ℚ
  salaryTo : Option ℚ
  salaryCurrency : Option String
  isGross : Bool
  lastAnalysisId : Option Nat
  deriving Repr, DecidableEq

/-- Embedding of the `VacancyAnalysis` ORM row (database/models.py); the
column values are those produced by `VacancyAnalysisResult.to_db_dict`. -/
structure AnalysisRow where
  id : Nat
  vacancyId : Nat
  trustScore : Int
  redFlags : List String
  toxicPhrases : List String
  honestSummary : String
  verdict : String
  modelName : String
  provider : String
  analysisVersion : String
  confidenceScore : Option ℚ
  tokensUsed : Option Int
  errorMessage : Option String
  isCurrent : Bool
  deriving Repr, DecidableEq

/-- The database state the repository operations act on. -/
structure DBState where
  vacancies : List VacancyRow
  analyses : List AnalysisRow
  nextAnalysisId : Nat
  deriving Repr, DecidableEq

/-! ## Record Repository (database/service.py, VacancyRepository) -/

/-- Embedding of `VacancyRepository.save_stage1_result`.  Building the
`update_values` dict evaluates the attribute `VacancyStatus.STRUCTURED`
(service.py:163); database/enums.py declares no such member, so the lookup
raises `AttributeError` before the UPDATE is issued — every call fails and
writes nothing.  The unreachable success branch translates the UPDATE the
source text specifies: the JSONB concat of `attributes` is a right-biased
merge, and since `attributes_update` supplies all four embedded keys the
merged column would hold exactly the Stage-1 values; the salary columns are
written only when `data.salary_parse` is present. -/
def save_stage1_result (vacancyId : Nat) (data : VacancyStructuredData)
    (st : DBState) : Except String DBState :=
  match VacancyStatus.fromAttr "STRUCTURED" with
  | none => .error "AttributeError: VacancyStatus has no attribute STRUCTURED"
  | some structuredMember =>
    .ok { st with vacancies := st.vacancies.map fun v =>
      if v.id = vacancyId then
        let v1 := { v with
          grade := some data.grade
          status := structuredMember
          workFormat := data.workFormat
          employmentType := data.employmentType
          experienceMin := data.experienceMin
          locationCity := data.locationCity
          locationAddress := data.locationAddress
          attributes := { techStack := some data.techStack
                          benefits := some data.benefits
                          redFlagKeywords := some data.redFlagKeywords
                          domain := some data.domain } }
        match data.salaryParse with
        | some sp => { v1 with
            salaryFrom := sp.min.map fun n => (n : ℚ)
            salaryTo := sp.max.map fun n => (n : ℚ)
            salaryCurrency := some sp.currency
            isGross := sp.isGross }
        | none => v1
      else v }

/-- Database-level failures that abort (and roll back) a transaction. -/
inductive DBError where
  | foreignKeyViolation (msg : String)
  deriving Repr, DecidableEq

/-- Step 1 of `save_stage2_result`: reset `is_current` for all prior analyses
of the vacancy. -/
def resetCurrent (vacancyId : Nat) (rows : List AnalysisRow) : List AnalysisRow :=
  rows.map fun a => if a.vacancyId = vacancyId then { a with isCurrent := false } else a

/-- The `VacancyAnalysis(vacancy_id=..., is_current=True, **result.to_db_dict())`
row constructed in step 2 of `save_stage2_result`. -/
def rowOfResult (id vacancyId : Nat) (r : VacancyAnalysisResult) : AnalysisRow :=
  { id := id
    vacancyId := vacancyId
    trustScore := r.judgment.trustScore
    redFlags := r.judgment.redFlags
    toxicPhrases := r.judgment.toxicPhrases
    honestSummary := r.judgment.honestSummary
    verdict := r.judgment.verdict
    modelName := r.modelName
    provider := r.provider
    analysisVersion := r.analysisVersion
    confidenceScore := r.confidenceScore
    tokensUsed := r.tokensUsed
    errorMessage := r.errorMessage
    isCurrent := true }

/-- Body of the `begin_nested()` transaction of
`VacancyRepository.save_stage2_result`: reset `is_current` on all prior
analyses of the vacancy, insert the new analysis as current, and point the
vacancy at it while setting status ANALYZED.  The insert violates the
`vacancy_analyses.vacancy_id` foreign key when the vacancy does not exist. -/
def save_stage2_body (vacancyId : Nat) (result : VacancyAnalysisResult)
    (st : DBState) : Except DBError DBState :=
  let st1 := { st with analyses := resetCurrent vacancyId st.analyses }
  if st.vacancies.any (fun v => v.id == vacancyId) then
    let newId := st.nextAnalysisId
    let st2 := { st1 with
      analyses := st1.analyses ++ [rowOfResult newId vacancyId result]
      nextAnalysisId := newId + 1 }
    .ok { st2 with vacancies := st2.vacancies.map fun v =>
      if v.id = vacancyId then
        { v with status := VacancyStatus.analyzed, lastAnalysisId := some newId }
      else v }
  else .error (.foreignKeyViolation "vacancy_analyses.vacancy_id")

/-- Transaction semantics of the `async with self.session.begin_nested()`
block: all-or-nothing — on success the new state is committed, on error the
state is rolled back unchanged and the error propagates. -/
def atomically (body : DBState → Except DBError DBState) (st : DBState) :
    DBState × Option DBError :=
  match body st with
  | .ok st2 => (st2, none)
  | .error e => (st, some e)

/-- Embedding of `VacancyRepository.save_stage2_result`. -/
def save_stage2_result (vacancyId : Nat) (result : VacancyAnalysisResult)
    (st : DBState) : DBState × Option DBError :=
  atomically (save_stage2_body vacancyId result) st

/-- Helper for `limit` arguments: `None` means no LIMIT clause. -/
def takeLimit {α : Type} : Option Nat → List α → List α
  | none, l => l
  | some n, l => l.take n

/-- Embedding of `VacancyRepository.get_vacancies_by_status`: a plain SELECT
filtered by status with a LIMIT — no `with_for_update`, hence no row locking
of any kind. -/
def get_vacancies_by_status (status : VacancyStatus) (limit : Option Nat)
    (st : DBState) : List VacancyRow :=
  takeLimit limit (st.vacancies.filter fun v => v.status = status)

/-- Row-lock state for claims executed via FOR UPDATE SKIP LOCKED: `locked`
holds the ids of rows currently locked by open claiming transactions. -/
structure LockState where
  db : DBState
  locked : List Nat
  deriving Repr, DecidableEq

/-- Embedding of `VacancyRepository.get_vacancies_for_llm_processing`.
Building the WHERE clause evaluates the attribute `VacancyStatus.STRUCTURED`
(service.py:216), which database/enums.py does not declare, so every call
raises `AttributeError` before any query is issued: no rows are returned
and no locks are taken.  The unreachable success branch translates the
query the source text specifies: SELECT the VECTORIZED/STRUCTURED rows
`FOR UPDATE SKIP LOCKED` with a LIMIT, where SKIP LOCKED passes over rows
locked by other open transactions and the returned rows become locked by
this transaction. -/
def get_vacancies_for_llm_processing (limit : Option Nat) (s : LockState) :
    Except String (List VacancyRow × LockState) :=
  match VacancyStatus.fromAttr "STRUCTURED" with
  | none => .error "AttributeError: VacancyStatus has no attribute STRUCTURED"
  | some structuredMember =>
    let claimed :=
      takeLimit limit
        ((s.db.vacancies.filter fun v =>
            decide (v.status = VacancyStatus.vectorized) ||
              decide (v.status = structuredMember)).filter
          fun v => !decide (v.id ∈ s.locked))
    .ok (claimed, { s with locked := claimed.map (·.id) ++ s.locked })

/-- A sequence of claim attempts drawn by (possibly distinct) workers
through `get_vacancies_for_llm_processing`, serialized in the order the
database would grant the row locks; an attempt whose call raises claims no
records and leaves the lock state unchanged.  Returns each attempt's list
of claimed record ids. -/
def runClaims : List (Option Nat) → LockState → List (List Nat)
  | [], _ => []
  | limit :: rest, s =>
    match get_vacancies_for_llm_processing limit s with
    | .error _ => [] :: runClaims rest s
    | .ok (claimed, s2) => claimed.map (·.id) :: runClaims rest s2

/-! ## Worker loop body (run_llm_requests.py, process_vacancy)

The missing analyzer stage methods are supplied as parameters.
Modelled from the spec: `analyzer.analyze_stage1` and
`analyzer.analyze_stage2`, called by `process_vacancy`, are not present
under src/ (src/brain/analyzer.py only defines `analyze_vacancy`); per the
spec each stage call goes to the backend and "each backend call returns a
token count", i.e. it returns the stage output together with the tokens
consumed, or raises an `AnalysisError`.  A stage call is therefore embedded
as an `Except BrainError (output × tokenCount)` outcome. -/

/-- Embedding of `Vacancy.to_structured_data` (database/models.py).  The
source constructs `VacancyStructuredData(tech_stack=..., benefits=...,
red_flag_keywords=..., domain=..., grade=self.grade, salary_parse=None)`
without supplying the required `work_format` and `employment_type` fields,
so the pydantic constructor always rejects the call with a validation
failure; the embedding returns that exception. -/
def VacancyRow.toStructuredData (_v : VacancyRow) : Except String VacancyStructuredData :=
  .error "pydantic ValidationError: work_format and employment_type are required"

/-- Observable effect of one `process_vacancy` task: the database state left
behind and, when the enclosing `except Exception` block caught an exception,
the logged message (the task swallows the exception and returns). -/
structure ProcessOutcome where
  state : DBState
  crisis : Option String
  deriving Repr, DecidableEq

/-- The `session.get(Vacancy, v_id)` lookup. -/
def findVacancy (st : DBState) (vid : Nat) : Option VacancyRow :=
  st.vacancies.find? fun v => v.id == vid

/-- Stage-2 tail of `process_vacancy`: call `analyze_stage2`, overwrite
`result.tokens_used` with `s1_tokens + s2_tokens`, persist through
`save_stage2_result`, then notify.  The notifier call has no database
effect and is outside the embedding.  Any raised exception is caught by the
task's `except Exception` block, which only logs it. -/
def runStage2 (vacancyId : Nat) (s1Data : VacancyStructuredData) (s1Tokens : Nat)
    (stage2 : VacancyStructuredData → Except BrainError (VacancyAnalysisResult × Nat))
    (st : DBState) : ProcessOutcome :=
  match stage2 s1Data with
  | .error e => ⟨st, some e.message⟩
  | .ok (result, s2Tokens) =>
    let result2 := { result with tokensUsed := some ((s1Tokens + s2Tokens : Nat) : Int) }
    match save_stage2_result vacancyId result2 st with
    | (st2, none) => ⟨st2, none⟩
    | (stRB, some _) => ⟨stRB, some "IntegrityError: vacancy_analyses.vacancy_id"⟩

/-- Embedding of `process_vacancy` (run_llm_requests.py): fetch the vacancy;
when its status is VECTORIZED run Stage 1 and persist it through
`save_stage1_result` (a call that raises `AttributeError` on every input,
see its definition), otherwise rebuild the Stage-1 data from the row (a
call that raises a pydantic validation failure, see `toStructuredData`);
only if the reached persistence step succeeded does the Stage-2 tail run.
Every exception raised along the way is caught by the task's
`except Exception` block, which logs the crisis and returns — it persists
nothing. -/
def process_vacancy (vid : Nat)
    (stage1 : Except BrainError (VacancyStructuredData × Nat))
    (stage2 : VacancyStructuredData → Except BrainError (VacancyAnalysisResult × Nat))
    (st : DBState) : ProcessOutcome :=
  match findVacancy st vid with
  | none => ⟨st, some "AttributeError: NoneType has no attribute status"⟩
  | some v =>
    if v.status = VacancyStatus.vectorized then
      match stage1 with
      | .error e => ⟨st, some e.message⟩
      | .ok (s1Data, s1Tokens) =>
        match save_stage1_result v.id s1Data st with
        | .error m => ⟨st, some m⟩
        | .ok st1 => runStage2 v.id s1Data s1Tokens stage2 st1
    else
      match v.toStructuredData with
      | .error m => ⟨st, some m⟩
      | .ok s1Data => runStage2 v.id s1Data 0 stage2 st

/-! ## Identity hashing (utils/hashing.py, scrapers/schemas.py) -/

/-- Drop leading whitespace characters. -/
def dropWhileWS : List Char → List Char
  | [] => []
  | c :: cs => if c.isWhitespace then dropWhileWS cs else c :: cs

/-- Python `str.strip()`: remove leading and trailing whitespace. -/
def strStrip (s : String) : String :=
  ⟨(dropWhileWS (dropWhileWS s.data).reverse).reverse⟩

/-- Python `s.lower().strip()`, the normalization applied to both identity
components. -/
def pyLowerStrip (s : String) : String :=
  strStrip (strLower s)

/-- Embedding of `generate_vacancy_identity_hash`: the digest of the
raw-data string `title.lower().strip() + "|" + company.lower().strip()`,
parametrized by the `hashlib.sha256(...).hexdigest()` digest function, which
is a pure function of its input string. -/
def generate_vacancy_identity_hash (sha256Hex : String → String)
    (title company : String) : String :=
  sha256Hex (pyLowerStrip title ++ "|" ++ pyLowerStrip company)

/-- The fields of `VacancyBaseDTO` (scrapers/schemas.py) relevant to
identity: the `generate_hashes` validator computes `identity_hash` from
`self.title` and `self.company.name` only. -/
structure VacancyBaseDTO where
  title : String
  companyName : String
  shortDescription : Option String
  deriving Repr, DecidableEq

/-- Identity hash assigned to a DTO by the `generate_hashes` validator. -/
def VacancyBaseDTO.identityHash (sha256Hex : String → String)
    (d : VacancyBaseDTO) : String :=
  generate_vacancy_identity_hash sha256Hex d.title d.companyName

/-! ## Concrete sample data used to evaluate the definitions -/

/-- A Stage-1 output sample. -/
def sampleStructured : VacancyStructuredData where
  techStack := ["Python"]
  grade := "Senior"
  workFormat := "remote"
  employmentType := "full_time"
  experienceMin := some 3
  locationCity := none
  locationAddress := none
  domain := some "FinTech"
  salaryParse := none
  benefits := ["insurance"]
  redFlagKeywords := ["overtime"]

/-- A Stage-2 output sample. -/
def sampleJudgment : VacancyJudgment where
  trustScore := 7
  redFlags := []
  toxicPhrases := []
  honestSummary := "fine"
  verdict := "Safe"

/-- A combined analysis-result sample. -/
def sampleResult : VacancyAnalysisResult where
  structuredData := sampleStructured
  judgment := sampleJudgment
  modelName := "gemini-2.5-flash"
  provider := "chain -> google"
  analysisVersion := "1.1"
  tokensUsed := none
  confidenceScore := none
  errorMessage := none

/-- A vacancy row sample with a given id and status. -/
def sampleRow (id : Nat) (status : VacancyStatus) : VacancyRow where
  id := id
  status := status
  title := "Backend Dev"
  companyName := "ACME"
  description := some "long text"
  attributes := ⟨none, none, none, none⟩
  grade := none
  workFormat := "office"
  employmentType := "full_time"
  experienceMin := none
  locationCity := none
  locationAddress := none
  salaryFrom := none
  salaryTo := none
  salaryCurrency := none
  isGross := false
  lastAnalysisId := none

/-- A prior analysis row sample marked current, for a given vacancy id. -/
def sampleOldAnalysis (id vacancyId : Nat) : AnalysisRow where
  id := id
  vacancyId := vacancyId
  trustScore := 4
  redFlags := []
  toxicPhrases := []
  honestSummary := "old"
  verdict := "Risky"
  modelName := "gpt-4o-mini"
  provider := "chain -> openai"
  analysisVersion := "1.0"
  confidenceScore := none
  tokensUsed := some 100
  errorMessage := none
  isCurrent := true

/-! ## Theorems -/

/-- C1: for an ordered adapter list in which the first j adapters report
unhealthy and adapter j+1 is healthy and succeeds, `SmartChainProvider.analyze`
returns adapter j+1's result, each of the first j adapters receives exactly
one skipped attempt (its single per-call event is `skipped`), the serving
adapter's index is recorded in `_last_used_provider`, and no adapter after
j+1 is invoked (their events are `untouched`). -/
theorem chain_first_healthy_serves {α : Type} (pre post : List (Adapter α))
    (p : Adapter α) (r : α) (t : Nat)
    (hpre : ∀ q ∈ pre, q.healthy = false)
    (hp : p.healthy = true) (hout : p.outcome = .ok (r, t)) :
    (chainAnalyze (pre ++ p :: post)).result = .ok (r, t) ∧
    (chainAnalyze (pre ++ p :: post)).servedIdx = some pre.length ∧
    (chainAnalyze (pre ++ p :: post)).events =
      (pre.map fun _ => AdapterEvent.skipped) ++
        AdapterEvent.served :: (post.map fun _ => AdapterEvent.untouched) := by
  induction pre with
  | nil =>
    simp [chainAnalyze, hp, hout]
  | cons q qs ih =>
    have hq : q.healthy = false := hpre q (List.mem_cons_self _ _)
    obtain ⟨h1, h2, h3⟩ := ih fun x hx => hpre x (List.mem_cons_of_mem _ hx)
    simp [chainAnalyze, hq, h1, h2, h3]

/-- Witness for C1: a three-adapter list whose first adapter is unhealthy and
whose second is healthy and succeeds. -/
theorem chain_first_healthy_serves_witness :
    (chainAnalyze [⟨false, .error (.providerError "down")⟩,
        (⟨true, .ok (7, 42)⟩ : Adapter Nat), ⟨true, .ok (9, 1)⟩]).result = .ok (7, 42) ∧
    (chainAnalyze [⟨false, .error (.providerError "down")⟩,
        (⟨true, .ok (7, 42)⟩ : Adapter Nat), ⟨true, .ok (9, 1)⟩]).servedIdx = some 1 ∧
    (chainAnalyze [⟨false, .error (.providerError "down")⟩,
        (⟨true, .ok (7, 42)⟩ : Adapter Nat), ⟨true, .ok (9, 1)⟩]).events =
      [.skipped, .served, .untouched] := by
  have h := chain_first_healthy_serves [⟨false, .error (.providerError "down")⟩]
      [⟨true, .ok (9, 1)⟩] (⟨true, .ok (7, 42)⟩ : Adapter Nat) 7 42
      (by intro q hq; rw [List.mem_singleton.mp hq]) rfl rfl
  simpa using h

/-- C2: a `ValidationError` raised by the first healthy adapter propagates
out of `SmartChainProvider.analyze` unchanged: the raising adapter's event is
`raised` (so `mark_failed` is not called on it), every adapter after it is
`untouched`, and no serving adapter is recorded. -/
theorem chain_validation_error_propagates {α : Type} (pre post : List (Adapter α))
    (p : Adapter α) (m : String)
    (hpre : ∀ q ∈ pre, q.healthy = false)
    (hp : p.healthy = true) (hout : p.outcome = .error (.validationError m)) :
    (chainAnalyze (pre ++ p :: post)).result = .error (.validationError m) ∧
    (chainAnalyze (pre ++ p :: post)).servedIdx = none ∧
    (chainAnalyze (pre ++ p :: post)).events =
      (pre.map fun _ => AdapterEvent.skipped) ++
        AdapterEvent.raised :: (post.map fun _ => AdapterEvent.untouched) := by
  induction pre with
  | nil =>
    simp [chainAnalyze, hp, hout, BrainError.caughtByChain]
  | cons q qs ih =>
    have hq : q.healthy = false := hpre q (List.mem_cons_self _ _)
    obtain ⟨h1, h2, h3⟩ := ih fun x hx => hpre x (List.mem_cons_of_mem _ hx)
    simp [chainAnalyze, hq, h1, h2, h3]

/-- Witness for C2: the first healthy adapter raises a schema mismatch. -/
theorem chain_validation_error_propagates_witness :
    (chainAnalyze [(⟨true, .error (.validationError "schema mismatch")⟩ : Adapter Nat),
        ⟨true, .ok (3, 8)⟩]).result = .error (.validationError "schema mismatch") ∧
    (chainAnalyze [(⟨true, .error (.validationError "schema mismatch")⟩ : Adapter Nat),
        ⟨true, .ok (3, 8)⟩]).servedIdx = none ∧
    (chainAnalyze [(⟨true, .error (.validationError "schema mismatch")⟩ : Adapter Nat),
        ⟨true, .ok (3, 8)⟩]).events = [.raised, .untouched] := by
  have h := chain_validation_error_propagates []
      [⟨true, .ok (3, 8)⟩] (⟨true, .error (.validationError "schema mismatch")⟩ : Adapter Nat)
      "schema mismatch" (by intro q hq; simp at hq) rfl rfl
  simpa using h

/-- C3: when every adapter reports unhealthy, `SmartChainProvider.analyze`
raises the aggregate `AnalysisError` and performs zero adapter `analyze`
invocations (zero network attempts): the health check skips each adapter. -/
theorem chain_all_unhealthy_collapse {α : Type} (ps : List (Adapter α))
    (h : ∀ p ∈ ps, p.healthy = false) :
    (chainAnalyze ps).result =
      .error (.analysisError "💀 Total collapse: all providers are dead or on cooldown.") ∧
    analyzeCallCount (chainAnalyze ps).events = 0 ∧
    (chainAnalyze ps).events = ps.map fun _ => AdapterEvent.skipped := by
  induction ps with
  | nil => simp [chainAnalyze, analyzeCallCount]
  | cons q qs ih =>
    have hq : q.healthy = false := h q (List.mem_cons_self _ _)
    obtain ⟨h1, h2, h3⟩ := ih fun x hx => h x (List.mem_cons_of_mem _ hx)
    refine ⟨by simp [chainAnalyze, hq, h1], ?_, by simp [chainAnalyze, hq, h3]⟩
    simp only [chainAnalyze, hq, Bool.false_eq_true, if_false]
    simpa [analyzeCallCount, List.countP_cons, AdapterEvent.invokesAnalyze]
      using h2

/-- Witness for C3: two adapters, both on cooldown. -/
theorem chain_all_unhealthy_collapse_witness :
    (chainAnalyze [(⟨false, .ok (1, 1)⟩ : Adapter Nat),
        ⟨false, .error (.rateLimitError "429")⟩]).result =
      .error (.analysisError "💀 Total collapse: all providers are dead or on cooldown.") ∧
    analyzeCallCount (chainAnalyze [(⟨false, .ok (1, 1)⟩ : Adapter Nat),
        ⟨false, .error (.rateLimitError "429")⟩]).events = 0 := by
  have h := chain_all_unhealthy_collapse
      [(⟨false, .ok (1, 1)⟩ : Adapter Nat), ⟨false, .error (.rateLimitError "429")⟩]
      (by decide)
  exact ⟨h.1, h.2.1⟩

/-- Componentwise congruence for `RetryRun` literals. -/
theorem retryRun_mk_congr {α : Type} (r1 r2 : Except PyError α) (n1 n2 : Nat)
    (s1 s2 : List ℚ) (h1 : r1 = r2) (h2 : n1 = n2) (h3 : s1 = s2) :
    (⟨r1, n1, s1⟩ : RetryRun α) = ⟨r2, n2, s2⟩ := by
  rw [h1, h2, h3]

/-- Behaviour of the decorator loop when every invocation of the wrapped
call raises a caught, rate-limit-flagged exception: starting at absolute
attempt `a` with `rem` loop iterations left, the loop sleeps after each of
its `rem` attempts and the final attempt outside the loop re-raises. -/
theorem retryLoop_all_rate_limited {α : Type} (d : ℚ) (call : Nat → Except PyError α)
    (e : Nat → PyError) (herr : ∀ n, call n = .error (e n))
    (hcaught : ∀ n, (e n).caught = true)
    (hrl : ∀ n, isRateLimitMessage (e n).msg = true) :
    ∀ rem a, retryLoop d call a rem =
      ⟨.error (e (a + rem)), a + rem + 1,
        (List.range rem).map fun i => d * ((a + i + 1 : Nat) : ℚ)⟩ := by
  intro rem
  induction rem with
  | zero => intro a; simp [retryLoop, herr a]
  | succ k ih =>
    intro a
    simp only [retryLoop, herr a, hcaught a, hrl a, if_true, ih (a + 1)]
    refine retryRun_mk_congr _ _ _ _ _ _ ?_ (by omega) ?_
    · rw [show a + 1 + k = a + (k + 1) from by omega]
    · rw [List.range_succ_eq_map, List.map_cons, List.map_map]
      refine congrArg₂ List.cons (by norm_num) (List.map_congr_left fun i _ => ?_)
      simp only [Function.comp_apply]
      congr 1
      push_cast
      ring

/-- C4 counterexample: with the source's default configuration
(`retries = 3`, `base_delay = 60`) and a wrapped call that raises a caught
rate-limit error on every invocation, the decorated call makes 4 attempts
(the 3 loop attempts plus the final attempt outside the loop), not 3 as the
claim states. -/
theorem retry_attempt_count_exceeds_ceiling :
    (retry_on_rate_limit 3 60
      (fun _ => (.error ⟨"429", true⟩ : Except PyError Nat))).attemptCount = 4 ∧
    ¬ (retry_on_rate_limit 3 60
      (fun _ => (.error ⟨"429", true⟩ : Except PyError Nat))).attemptCount = 3 := by
  constructor <;> decide

/-- C4 (amended): when the wrapped call raises a caught rate-limit error on
every attempt, the decorator sleeps `base_delay * attempt_number` before each
retry — delays `d, 2d, ..., Rd`, strictly increasing for `d > 0` — makes
exactly `R + 1` attempts (the `R` loop attempts plus one final attempt
outside the loop), and then re-raises the final attempt's underlying error;
a caught error without a rate-limit marker propagates immediately after a
single attempt, with no sleep. -/
theorem retry_linear_backoff_behavior {α : Type} (R : Nat) (d : ℚ) (hd : 0 < d)
    (call : Nat → Except PyError α) (e : Nat → PyError)
    (herr : ∀ n, call n = .error (e n))
    (hcaught : ∀ n, (e n).caught = true)
    (hrl : ∀ n, isRateLimitMessage (e n).msg = true) :
    (retry_on_rate_limit R d call).result = .error (e R) ∧
    (retry_on_rate_limit R d call).attemptCount = R + 1 ∧
    (retry_on_rate_limit R d call).sleeps =
      (List.range R).map (fun i => d * ((i + 1 : Nat) : ℚ)) ∧
    (retry_on_rate_limit R d call).sleeps.Pairwise (· < ·) ∧
    (∀ (g : Nat → Except PyError α) (e0 : PyError), g 0 = .error e0 →
      isRateLimitMessage e0.msg = false →
      retry_on_rate_limit R d g = ⟨.error e0, 1, []⟩) := by
  have hmain := retryLoop_all_rate_limited d call e herr hcaught hrl R 0
  have hsleeps : (retry_on_rate_limit R d call).sleeps =
      (List.range R).map fun i => d * ((i + 1 : Nat) : ℚ) := by
    rw [retry_on_rate_limit, hmain]
    exact List.map_congr_left fun i _ => by norm_num
  refine ⟨?_, ?_, hsleeps, ?_, ?_⟩
  · rw [retry_on_rate_limit, hmain]; simp
  · rw [retry_on_rate_limit, hmain]; simp
  · rw [hsleeps]
    refine (List.pairwise_lt_range R).map _ fun i j hij => ?_
    exact mul_lt_mul_of_pos_left (by exact_mod_cast Nat.succ_lt_succ hij) hd
  · intro g e0 hg hrl0
    cases R with
    | zero => simp [retry_on_rate_limit, retryLoop, hg]
    | succ k =>
      simp only [retry_on_rate_limit, retryLoop, hg, hrl0, Bool.false_eq_true, if_false]
      exact ite_self _

/-- Witness for C4 (amended): `retries = 2`, `base_delay = 5`, every attempt
raising a caught quota error: 3 attempts, sleeps 5 then 10. -/
theorem retry_linear_backoff_behavior_witness :
    (retry_on_rate_limit 2 5
      (fun _ => (.error ⟨"quota exceeded", true⟩ : Except PyError Nat))).result =
        .error ⟨"quota exceeded", true⟩ ∧
    (retry_on_rate_limit 2 5
      (fun _ => (.error ⟨"quota exceeded", true⟩ : Except PyError Nat))).attemptCount = 3 ∧
    (retry_on_rate_limit 2 5
      (fun _ => (.error ⟨"quota exceeded", true⟩ : Except PyError Nat))).sleeps = [5, 10] := by
  have hq : isRateLimitMessage "quota exceeded" = true := by decide
  have h := retry_linear_backoff_behavior 2 5 (by norm_num)
      (fun _ => (.error ⟨"quota exceeded", true⟩ : Except PyError Nat))
      (fun _ => ⟨"quota exceeded", true⟩) (fun _ => rfl) (fun _ => rfl)
      (fun _ => hq)
  refine ⟨h.1, h.2.1, ?_⟩
  rw [h.2.2.1]
  norm_num [List.range_succ]

/-- C7: the `VacancyStatus` enum of database/enums.py does not declare a
`STRUCTURED` member — its members are exactly NEW, EXTRACTED, ANALYZED,
VECTORIZED, ARCHIVED, FAILED — so the attribute lookup
`VacancyStatus.STRUCTURED` performed by `save_stage1_result` (the Stage-1
save) and by `get_vacancies_for_llm_processing` raises `AttributeError`
instead of producing a member of the claimed status set. -/
theorem vacancy_status_structured_missing :
    VacancyStatus.fromAttr "STRUCTURED" = none ∧
    (∀ s : VacancyStatus, s.pyName ≠ "STRUCTURED") ∧
    (∀ s : VacancyStatus, VacancyStatus.fromAttr s.pyName = some s) := by
  refine ⟨rfl, ?_, ?_⟩ <;> decide

/-- C10: the identity hash depends only on the posting's title and company
name normalized by lower-casing and stripping surrounding whitespace; two
DTOs whose titles and company names agree after that normalization receive
the same identity hash, for every digest function, regardless of any
difference in their descriptions or other fields. -/
theorem identity_hash_ignores_case_space_and_description
    (sha256Hex : String → String) (d1 d2 : VacancyBaseDTO)
    (ht : pyLowerStrip d1.title = pyLowerStrip d2.title)
    (hc : pyLowerStrip d1.companyName = pyLowerStrip d2.companyName) :
    d1.identityHash sha256Hex = d2.identityHash sha256Hex := by
  unfold VacancyBaseDTO.identityHash generate_vacancy_identity_hash
  rw [ht, hc]

/-- Witness for C10: titles and companies differing in case and surrounding
whitespace, descriptions entirely different, same digest input. -/
theorem identity_hash_ignores_case_space_and_description_witness :
    VacancyBaseDTO.identityHash (fun s => s)
        ⟨" Senior Dev ", "ACME  ", some "first description"⟩ =
      VacancyBaseDTO.identityHash (fun s => s) ⟨"senior dev", " acme", none⟩ := by
  exact identity_hash_ignores_case_space_and_description (fun s => s)
    ⟨" Senior Dev ", "ACME  ", some "first description"⟩
    ⟨"senior dev", " acme", none⟩ (by decide) (by decide)

/-- After the reset step, no analysis of the target vacancy is current. -/
theorem countP_resetCurrent_self (vid : Nat) (rows : List AnalysisRow) :
    (resetCurrent vid rows).countP (fun a => a.vacancyId == vid && a.isCurrent) = 0 := by
  rw [List.countP_eq_zero]
  intro a ha
  simp only [resetCurrent, List.mem_map] at ha
  obtain ⟨b, _, rfl⟩ := ha
  by_cases h : b.vacancyId = vid <;> simp [h]

/-- The reset step does not change which analyses of any other vacancy are
current. -/
theorem countP_resetCurrent_other (vid w : Nat) (hw : w ≠ vid)
    (rows : List AnalysisRow) :
    (resetCurrent vid rows).countP (fun a => a.vacancyId == w && a.isCurrent) =
      rows.countP (fun a => a.vacancyId == w && a.isCurrent) := by
  unfold resetCurrent
  rw [List.countP_map]
  refine List.countP_congr fun a _ => ?_
  by_cases h : a.vacancyId = vid
  · simp [Function.comp, h, Ne.symm hw]
  · simp [Function.comp, h]

/-- C8: `save_stage2_result` is one all-or-nothing transaction.  When the
vacancy exists it commits exactly the three writes — every prior analysis of
the Record loses `is_current`, the new result row is inserted as current,
and the Record's pointer and status are updated to it — after which exactly
one analysis of that Record is current and the current-counts of all other
Records are unchanged.  When the insert fails the state is rolled back
unchanged and the error propagates. -/
theorem save_stage2_atomic_single_current (st : DBState) (vid : Nat)
    (r : VacancyAnalysisResult) :
    (st.vacancies.any (fun v => v.id == vid) = true →
      save_stage2_result vid r st =
        ({ vacancies := st.vacancies.map fun v =>
              if v.id = vid then
                { v with status := VacancyStatus.analyzed,
                         lastAnalysisId := some st.nextAnalysisId }
              else v
           analyses := resetCurrent vid st.analyses ++ [rowOfResult st.nextAnalysisId vid r]
           nextAnalysisId := st.nextAnalysisId + 1 }, none) ∧
      (save_stage2_result vid r st).1.analyses.countP
          (fun a => a.vacancyId == vid && a.isCurrent) = 1 ∧
      (∀ w, w ≠ vid →
        (save_stage2_result vid r st).1.analyses.countP
            (fun a => a.vacancyId == w && a.isCurrent) =
          st.analyses.countP (fun a => a.vacancyId == w && a.isCurrent))) ∧
    (st.vacancies.any (fun v => v.id == vid) = false →
      save_stage2_result vid r st =
        (st, some (.foreignKeyViolation "vacancy_analyses.vacancy_id"))) := by
  constructor
  · intro h
    have heq : save_stage2_result vid r st =
        ({ vacancies := st.vacancies.map fun v =>
              if v.id = vid then
                { v with status := VacancyStatus.analyzed,
                         lastAnalysisId := some st.nextAnalysisId }
              else v
           analyses := resetCurrent vid st.analyses ++ [rowOfResult st.nextAnalysisId vid r]
           nextAnalysisId := st.nextAnalysisId + 1 }, none) := by
      simp [save_stage2_result, atomically, save_stage2_body, h]
    refine ⟨heq, ?_, ?_⟩
    · rw [heq]
      simp [List.countP_append, countP_resetCurrent_self, rowOfResult, List.countP_cons]
    · intro w hw
      rw [heq]
      simp [List.countP_append, countP_resetCurrent_other vid w hw, rowOfResult,
        List.countP_cons, Ne.symm hw]
  · intro h
    simp [save_stage2_result, atomically, save_stage2_body, h]

/-- Witness for C8: a state holding one vacancy and one prior current
analysis for it; the commit leaves exactly one current analysis. -/
theorem save_stage2_atomic_single_current_witness :
    (save_stage2_result 1 sampleResult
        ⟨[sampleRow 1 .extracted], [sampleOldAnalysis 0 1], 1⟩).1.analyses.countP
      (fun a => a.vacancyId == 1 && a.isCurrent) = 1 ∧
    (save_stage2_result 1 sampleResult
        ⟨[sampleRow 1 .extracted], [sampleOldAnalysis 0 1], 1⟩).2 = none := by
  have h := save_stage2_atomic_single_current
      ⟨[sampleRow 1 .extracted], [sampleOldAnalysis 0 1], 1⟩ 1 sampleResult
  have h1 := h.1 (by decide)
  exact ⟨h1.2.1, by rw [h1.1]⟩

/-- C9 (amended): every call of the skip-locked judgment-queue claim
`get_vacancies_for_llm_processing` raises `AttributeError` at
`VacancyStatus.STRUCTURED` before issuing its query, claiming no records
and taking no locks; consequently every claim attempt in any sequence of
such attempts returns the empty id set, and the claimed id sets are
pairwise disjoint — no Record is ever claimed twice through it, because
none is ever claimed. -/
theorem llm_claims_raise_and_never_overlap (lims : List (Option Nat)) (s : LockState) :
    (∀ (limit : Option Nat) (s2 : LockState),
      get_vacancies_for_llm_processing limit s2 =
        .error "AttributeError: VacancyStatus has no attribute STRUCTURED") ∧
    (∀ l ∈ runClaims lims s, l = []) ∧
    (runClaims lims s).Pairwise (fun a b => ∀ x ∈ a, x ∉ b) := by
  have herr : ∀ (limit : Option Nat) (s2 : LockState),
      get_vacancies_for_llm_processing limit s2 =
        .error "AttributeError: VacancyStatus has no attribute STRUCTURED" :=
    fun _ _ => rfl
  have hshape : ∀ (ls : List (Option Nat)) (s2 : LockState),
      ∀ l ∈ runClaims ls s2, l = [] := by
    intro ls
    induction ls with
    | nil => intro s2 l hl; simp [runClaims] at hl
    | cons lim rest ih =>
      intro s2 l hl
      simp only [runClaims, herr, List.mem_cons] at hl
      rcases hl with rfl | h2
      · rfl
      · exact ih s2 l h2
  have hpair : ∀ (ls : List (Option Nat)) (s2 : LockState),
      (runClaims ls s2).Pairwise (fun a b => ∀ x ∈ a, x ∉ b) := by
    intro ls
    induction ls with
    | nil => intro s2; simp [runClaims]
    | cons lim rest ih =>
      intro s2
      simp only [runClaims, herr]
      refine List.Pairwise.cons ?_ (ih s2)
      intro b hb x hx
      simp at hx
  exact ⟨herr, hshape lims s, hpair lims s⟩

/-- C9 counterexample: `get_vacancies_by_status` — the status-parametrized
batch read the claim describes as `claim_batch(status, limit)` — issues a
plain SELECT with no `with_for_update`, so it takes no row locks.  Two
workers claiming concurrently against the same status each evaluate that
same unlocked SELECT on the same committed state: on a database holding one
VECTORIZED record with id 1, worker A's claim and worker B's claim both
contain record 1, so the claimed sets are not disjoint. -/
theorem by_status_claims_overlap :
    (1 : Nat) ∈ (get_vacancies_by_status .vectorized (some 1)
        ⟨[sampleRow 1 .vectorized], [], 0⟩).map (·.id) ∧
    (1 : Nat) ∈ (get_vacancies_by_status .vectorized (some 1)
        ⟨[sampleRow 1 .vectorized], [], 0⟩).map (·.id) := by
  constructor <;> decide

/-- C5: evaluation of the worker body at a Record for which the claim
expects a persisted token sum — a VECTORIZED Record whose Stage-1 and
Stage-2 calls would both succeed, returning token counts 7 and 11.  The
Stage-1 save raises `AttributeError` at `VacancyStatus.STRUCTURED` before
any write, the task-level `except` block catches and logs it, and the
database is left completely unchanged: no AnalysisResult row — in
particular none carrying the Stage-1 + Stage-2 token sum 18 — is ever
persisted. -/
theorem stage_token_sum_never_persisted :
    (process_vacancy 1 (.ok (sampleStructured, 7))
        (fun _ => .ok (sampleResult, 11))
        ⟨[sampleRow 1 .vectorized], [], 0⟩).state =
      ⟨[sampleRow 1 .vectorized], [], 0⟩ ∧
    (process_vacancy 1 (.ok (sampleStructured, 7))
        (fun _ => .ok (sampleResult, 11))
        ⟨[sampleRow 1 .vectorized], [], 0⟩).crisis =
      some "AttributeError: VacancyStatus has no attribute STRUCTURED" := by
  constructor <;> rfl

/-- C6 counterexample: on a database holding one VECTORIZED record with
id 5 and no analyses, the Stage-1 call raises a `ProviderError` (an
`AnalysisError`); `process_vacancy` catches and logs it but persists no
analysis row at all — in particular no technical-failure result with
trust_score 0 and verdict "Analysis Failed". -/
theorem stage1_failure_records_nothing :
    (process_vacancy 5 (.error (.providerError "boom"))
        (fun _ => .ok (sampleResult, 11))
        ⟨[sampleRow 5 .vectorized], [], 0⟩).state.analyses = [] ∧
    (process_vacancy 5 (.error (.providerError "boom"))
        (fun _ => .ok (sampleResult, 11))
        ⟨[sampleRow 5 .vectorized], [], 0⟩).crisis = some "boom" := by
  constructor <;> rfl

/-- C6 (amended): when the Stage-1 call raises an `AnalysisError` for a
VECTORIZED Record — the only stage call reachable in the source as written,
since the Stage-1 save and the other branch's `to_structured_data` raise
before Stage 2 can run — the Worker Loop's `except` block catches it, so
the caller does not crash; but no technical-failure AnalysisResult is
recorded and nothing is persisted: the database state is completely
unchanged and the Record keeps its prior status and attributes, to be
re-claimed on a later poll.  The same holds when the Stage-1 call succeeds,
because the Stage-1 save itself then raises before writing. -/
theorem stage_failure_caught_nothing_recorded (st : DBState) (vid : Nat)
    (v : VacancyRow) (e : BrainError)
    (stage2 : VacancyStructuredData → Except BrainError (VacancyAnalysisResult × Nat))
    (hfind : findVacancy st vid = some v)
    (hstatus : v.status = VacancyStatus.vectorized) :
    (process_vacancy vid (.error e) stage2 st).crisis = some e.message ∧
    (process_vacancy vid (.error e) stage2 st).state = st ∧
    (∀ (d : VacancyStructuredData) (t1 : Nat),
      (process_vacancy vid (.ok (d, t1)) stage2 st).state = st) := by
  refine ⟨?_, ?_, ?_⟩
  · simp only [process_vacancy, hfind, hstatus, if_true]
  · simp only [process_vacancy, hfind, hstatus, if_true]
  · intro d t1
    simp only [process_vacancy, hfind, hstatus, if_true]
    rfl

/-- Witness for C6 (amended): a VECTORIZED record with one pre-existing
analysis; the Stage-1 call raises a rate-limit error; the crisis is logged
and the state — the analyses in particular — is untouched. -/
theorem stage_failure_caught_nothing_recorded_witness :
    (process_vacancy 4 (.error (.rateLimitError "429 quota"))
        (fun _ => .ok (sampleResult, 11))
        ⟨[sampleRow 4 .vectorized], [sampleOldAnalysis 2 4], 3⟩).crisis =
      some "429 quota" ∧
    (process_vacancy 4 (.error (.rateLimitError "429 quota"))
        (fun _ => .ok (sampleResult, 11))
        ⟨[sampleRow 4 .vectorized], [sampleOldAnalysis 2 4], 3⟩).state =
      ⟨[sampleRow 4 .vectorized], [sampleOldAnalysis 2 4], 3⟩ := by
  have h := stage_failure_caught_nothing_recorded
      ⟨[sampleRow 4 .vectorized], [sampleOldAnalysis 2 4], 3⟩ 4
      (sampleRow 4 .vectorized) (.rateLimitError "429 quota")
      (fun _ => .ok (sampleResult, 11)) rfl rfl
  exact ⟨h.1, h.2.1⟩

end Onigari
